import Mathlib

/-!
Shallow embedding of `idb/common/companion.py` (the companion process
supervisor of the idb repository), together with proofs of the spec claims
about it.

Conventions of the embedding:
* Python exceptions are values of `PyErr`; a Python function that may raise
  is a Lean function into `Except PyErr _`.
* The asynchronous control flow of one companion invocation is modelled as a
  pure function of the observable behaviour of the child process
  (`CommandBehavior`, `TeardownBehavior`); the events of an invocation
  (spawning, the teardown call, signals, the caller observing the result)
  are recorded in an ordered trace of `Event`s.
* Python byte strings are `List Nat` (each element one byte); Python `str`
  is Lean `String`.
-/

deriving instance DecidableEq for Except

/-- Signals sent to a child process: `process.terminate()` sends SIGTERM and
`process.kill()` sends SIGKILL. -/
inductive Signal
  | sigterm
  | sigkill
  deriving DecidableEq, Repr

/-- A decoded JSON scalar value, as produced by the Python function `json.loads` for the
values of a JSON object (the code annotates the result of `parse_json_line`
as `Dict[str, Union[int, str]]`; `null` is kept because `dict.get` treats a
stored `None` like an absent key). -/
inductive PyVal
  | str (s : String)
  | int (n : Int)
  | null
  deriving DecidableEq, Repr

/-- Modelled from the spec: `TargetDescription` lives in
`idb/common/types.py`, which is not under `src/`.  The spec data model
lists `{udid, name, state, target_type (simulator|device), os_version,
architecture, companion metadata}`; the code under `src/` only ever reads
the `udid` field. -/
structure TargetDescription where
  udid : String
  name : String
  state : String
  target_type : String
  os_version : String
  architecture : String
  deriving DecidableEq, Repr

/-- The exceptions raised by `companion.py`, one constructor per `raise`
site, each carrying the data interpolated into the exception message:
* `idbNoCompanionPath` — `IdbException("Companion path not provided")`;
* `idbNonMacPlatform` — `IdbException("Companion interactions do not work on non-macOS platforms")`;
* `idbCommandFailed` — `IdbException(f"Failed to run {arguments}")`;
* `idbCommandTimeout` — `IdbException(f"Timed out after {timeout} secs on command ...")`;
* `idbJson` — `IdbJsonException(f"Failed to parse json from: {decoded_line}")`;
* `idbNoGrpcPath` — `IdbException(f"No grpc_path in {line}")`;
* `idbMoreThanOne` — `IdbException(f"More than one device info found {details}")`;
* `idbNoneFound` — `IdbException(f"No device info found, got {all_details}")`;
* `unicodeDecodeError` — the `UnicodeDecodeError` raised by `bytes.decode()`;
* `indexError` — the `IndexError` raised by `list[-1]` on an empty list. -/
inductive PyErr
  | idbNoCompanionPath
  | idbNonMacPlatform
  | idbCommandFailed (arguments : List String)
  | idbCommandTimeout (arguments : List String) (timeout : Int)
  | idbJson (decodedLine : String)
  | idbNoGrpcPath (line : List Nat)
  | idbMoreThanOne (details : List TargetDescription)
  | idbNoneFound (allDetails : List TargetDescription)
  | unicodeDecodeError (line : List Nat)
  | indexError
  deriving DecidableEq, Repr

/-- Holds exactly for the `IdbJsonException` constructor (what the spec
calls the generic JSON parse failure `ProtocolError`). -/
def PyErr.isIdbJson : PyErr → Bool
  | .idbJson _ => true
  | _ => false

/-- How the interaction of a caller with a companion invocation ends: a normal
return value, a raised exception, or cancellation of the surrounding task
(asyncio `CancelledError`). -/
inductive Outcome (α : Type)
  | ok (a : α)
  | error (e : PyErr)
  | cancelled
  deriving DecidableEq, Repr

/-- Holds iff the outcome is a normal return. -/
def Outcome.isOk : Outcome α → Bool
  | .ok _ => true
  | _ => false

/-- Observable events of one companion invocation, in order:
`spawn cmd` is `asyncio.create_subprocess_exec(*cmd, ...)`, `teardownCall`
is the entry into `_terminate_process` from the `finally` block, `sig` is a
signal sent by teardown, and `observe` marks the point where the caller
continuation receives the result of the invocation. -/
inductive Event
  | spawn (cmd : List String)
  | teardownCall
  | sig (s : Signal)
  | observe
  deriving DecidableEq, Repr

/-- Constant `DEFAULT_COMPANION_COMMAND_TIMEOUT = 120`. -/
def DEFAULT_COMPANION_COMMAND_TIMEOUT : Int := 120

/-- Constant `DEFAULT_COMPANION_TEARDOWN_TIMEOUT = 30`. -/
def DEFAULT_COMPANION_TEARDOWN_TIMEOUT : Int := 30

/-- The configuration state of a `Companion` object as set by `__init__`:
never mutated afterwards. -/
structure Companion where
  companion_path : Option String
  device_set_path : Option String
  companion_command_timeout : Int := DEFAULT_COMPANION_COMMAND_TIMEOUT
  companion_teardown_timeout : Int := DEFAULT_COMPANION_TEARDOWN_TIMEOUT
  deriving DecidableEq, Repr

/-! ### Python string primitives used by the code

`bytes.decode()` (strict UTF-8), `str.splitlines()` and `str.strip()` are
Python builtins; they are modelled here directly.  `pyIsSpace` covers the
ASCII and Latin-1 whitespace recognised by `str.strip()`; the rarer Unicode
space characters are omitted, no claim depends on them. -/

/-- Holds for a UTF-8 continuation byte `0x80..0xBF`. -/
def utf8Cont (b : Nat) : Bool := 0x80 ≤ b && b ≤ 0xBF

/-- Strict UTF-8 decoding of a byte list into characters, as performed by
Python `bytes.decode()`: rejects stray continuation bytes, truncated
sequences, overlong encodings, surrogate code points and code points above
`U+10FFFF`. -/
def utf8DecodeAux : List Nat → Option (List Char)
  | [] => some []
  | b :: rest =>
    if b ≤ 0x7F then
      (utf8DecodeAux rest).map fun cs => Char.ofNat b :: cs
    else if 0xC2 ≤ b && b ≤ 0xDF then
      match rest with
      | b1 :: rest1 =>
        if utf8Cont b1 then
          (utf8DecodeAux rest1).map fun cs =>
            Char.ofNat ((b - 0xC0) * 0x40 + (b1 - 0x80)) :: cs
        else none
      | [] => none
    else if 0xE0 ≤ b && b ≤ 0xEF then
      match rest with
      | b1 :: b2 :: rest2 =>
        let lo1 : Nat := if b = 0xE0 then 0xA0 else 0x80
        let hi1 : Nat := if b = 0xED then 0x9F else 0xBF
        if lo1 ≤ b1 && b1 ≤ hi1 && utf8Cont b2 then
          (utf8DecodeAux rest2).map fun cs =>
            Char.ofNat ((b - 0xE0) * 0x1000 + (b1 - 0x80) * 0x40 + (b2 - 0x80)) :: cs
        else none
      | _ => none
    else if 0xF0 ≤ b && b ≤ 0xF4 then
      match rest with
      | b1 :: b2 :: b3 :: rest3 =>
        let lo1 : Nat := if b = 0xF0 then 0x90 else 0x80
        let hi1 : Nat := if b = 0xF4 then 0x8F else 0xBF
        if lo1 ≤ b1 && b1 ≤ hi1 && utf8Cont b2 && utf8Cont b3 then
          (utf8DecodeAux rest3).map fun cs =>
            Char.ofNat
              ((b - 0xF0) * 0x40000 + (b1 - 0x80) * 0x1000 + (b2 - 0x80) * 0x40
                + (b3 - 0x80)) :: cs
        else none
      | _ => none
    else none

/-- Python `line.decode()`: strict UTF-8 decode of a byte string, `none` on
a `UnicodeDecodeError`. -/
def utf8Decode (bs : List Nat) : Option String :=
  (utf8DecodeAux bs).map fun cs => ⟨cs⟩

/-- The byte string of a pure-ASCII Lean string (a convenience for concrete
inputs; on ASCII text UTF-8 encoding is the identity on code points). -/
def asciiBytes (s : String) : List Nat := s.toList.map Char.toNat

/-- The line-boundary characters of Python `str.splitlines()`:
`\n`, `\r` (with `\r\n` counted once), `\v`, `\f`, `\x1c`, `\x1d`, `\x1e`,
`\x85`, `U+2028`, `U+2029`. -/
def isLineBoundary (c : Char) : Bool :=
  c = '\n' || c = '\r' || c.val == 0x0B || c.val == 0x0C || c.val == 0x1C ||
  c.val == 0x1D || c.val == 0x1E || c.val == 0x85 || c.val == 0x2028 ||
  c.val == 0x2029

/-- Python `str.splitlines()` on a character list: splits at each line
boundary, treats `\r\n` as a single boundary, and produces no final empty
line for input ending in a boundary (`"a\n".splitlines() == ["a"]`, while
`"a\n\n".splitlines() == ["a", ""]`). -/
def pySplitlinesList : List Char → List (List Char)
  | [] => []
  | '\r' :: '\n' :: rest => [] :: pySplitlinesList rest
  | c :: rest =>
    if isLineBoundary c then
      [] :: pySplitlinesList rest
    else
      match pySplitlinesList rest with
      | [] => [[c]]
      | l :: ls => (c :: l) :: ls

/-- Python `str.splitlines()` on a string. -/
def pySplitlines (s : String) : List String :=
  (pySplitlinesList s.toList).map fun cs => ⟨cs⟩

/-- The whitespace recognised by Python `str.strip()` (ASCII and Latin-1
part): space, `\t`, `\n`, `\v`, `\f`, `\r`, `\x1c..\x1f`, `\x85`, `\xa0`. -/
def pyIsSpace (c : Char) : Bool :=
  c = ' ' || c = '\t' || c = '\n' || c.val == 0x0B || c.val == 0x0C ||
  c = '\r' || c.val == 0x1C || c.val == 0x1D || c.val == 0x1E ||
  c.val == 0x1F || c.val == 0x85 || c.val == 0xA0

/-- Python `str.strip()`: removes leading and trailing whitespace. -/
def pyStrip (s : String) : String :=
  ⟨(s.toList.dropWhile pyIsSpace).reverse.dropWhile pyIsSpace |>.reverse⟩

/-! ### `parse_json_line` and the `--only` filter -/

/-- The Python stdlib function `json.loads` is external library code; the embedding
quantifies over it as a function producing the key/value pairs of a JSON
object (`none` for a `json.JSONDecodeError`; lines that are valid JSON but
not objects are outside the `Dict` annotation of `parse_json_line` and are
likewise mapped to `none`). -/
def JsonLoads : Type := String → Option (List (String × PyVal))

/-- Function `parse_json_line(line)`: `line.decode()` runs OUTSIDE the `try` block,
so a `UnicodeDecodeError` propagates as-is; only `json.JSONDecodeError`
from `json.loads` is converted into `IdbJsonException` carrying the decoded
line. -/
def parse_json_line (loads : JsonLoads) (line : List Nat) :
    Except PyErr (List (String × PyVal)) :=
  match utf8Decode line with
  | none => .error (.unicodeDecodeError line)
  | some decoded =>
    match loads decoded with
    | none => .error (.idbJson decoded)
    | some obj => .ok obj

/-- Enum `TargetType` from `idb/common/types.py` (not under `src/`); the spec
enum `simulator | device`. -/
inductive TargetType
  | simulator
  | device
  deriving DecidableEq, Repr

/-- Union `OnlyFilter = Union[TargetType, ECIDFilter]` from `idb/common/types.py`
(not under `src/`); per the spec, the ECID variant carries its
identifier (held here already formatted as a string, as the code only ever
interpolates it into `f"ecid:{only.ecid}"`). -/
inductive OnlyFilter
  | targetType (t : TargetType)
  | ecid (e : String)
  deriving DecidableEq, Repr

/-- Function `_only_arg_from_filter(only)`. -/
def _only_arg_from_filter : Option OnlyFilter → List String
  | some (.targetType t) =>
    ["--only", if t = TargetType.simulator then "simulator" else "device"]
  | some (.ecid e) => ["--only", "ecid:" ++ e]
  | none => []

/-! ### `_terminate_process` and the scoped process acquisition -/

/-- The state of the child process as seen by `_terminate_process`:
`returncode` is `process.returncode` on entry (`some` iff the process has
already exited), and `exitsWithinTimeout` says whether `process.wait()`
completes within the teardown timeout once SIGTERM has been sent. -/
structure TeardownBehavior where
  returncode : Option Int
  exitsWithinTimeout : Bool
  deriving DecidableEq, Repr

/-- Function `_terminate_process(process, timeout, logger)`, as the list of signals
it sends, in order.  If the process has already exited it returns at once;
otherwise it calls `process.terminate()` (SIGTERM) and waits up to the
timeout; if the wait times out it calls `process.kill()` (SIGKILL).  The
`except TimeoutError` clause is modelled as catching the timeout of
`asyncio.wait_for` (the aliasing of `asyncio.TimeoutError` to the builtin
`TimeoutError` in current Python). -/
def _terminate_process (tb : TeardownBehavior) : List Signal :=
  match tb.returncode with
  | some _ => []
  | none =>
    if tb.exitsWithinTimeout then [Signal.sigterm]
    else [Signal.sigterm, Signal.sigkill]

/-- The argument vector built by `_start_companion_command`:
`[companion_path] + (["--device-set-path", p] if set) + arguments`. -/
def buildCmd (companion_path : String) (device_set_path : Option String)
    (arguments : List String) : List String :=
  [companion_path] ++
    (match device_set_path with
     | some d => ["--device-set-path", d]
     | none => []) ++ arguments

/-- The `_start_companion_command` async context manager, run to completion
against a caller body with outcome `body` (that outcome covers the
three exit paths: normal return, raised exception, cancellation of the
surrounding task).  Returns the outcome the caller continuation observes
together with the ordered event trace.  When no companion path is
configured the `IdbException` is raised before any spawn; otherwise the
process is spawned, the body runs, and the `finally` block always calls
`_terminate_process` before control (and with it the outcome) returns to
the caller — the trailing `observe` event marks that return. -/
def _start_companion_command (platform : String) (c : Companion)
    (arguments : List String) (body : Outcome α) (tb : TeardownBehavior) :
    Outcome α × List Event :=
  match c.companion_path with
  | none =>
    (.error (if platform = "darwin" then .idbNoCompanionPath else .idbNonMacPlatform),
     [Event.observe])
  | some companion_path =>
    (body,
     Event.spawn (buildCmd companion_path c.device_set_path arguments) ::
       Event.teardownCall :: (_terminate_process tb).map Event.sig ++ [Event.observe])

/-- Python truthiness of `timeout or self._companion_command_timeout` for
`timeout: Optional[int]`: both `None` and `0` are falsy and fall back to
the default. -/
def pyOr : Option Int → Int → Int
  | none, d => d
  | some t, d => if t = 0 then d else t

/-- The behaviour of the child process of a one-shot command:
`completionTime` is how long `process.communicate()` takes, `stdout` the
captured standard output (modelled after `output.decode()`), `returncode`
the exit code once it has exited. -/
structure CommandBehavior where
  completionTime : Int
  stdout : String
  returncode : Int
  deriving DecidableEq, Repr

/-- The body of the `async with` block of `_run_companion_command`:
`asyncio.wait_for(process.communicate(), timeout=timeout)` completes iff
the process finishes within the resolved timeout; then a nonzero exit code
raises `IdbException(f"Failed to run {arguments}")`, otherwise the decoded
output is returned; on `asyncio.TimeoutError` the timeout `IdbException`
is raised. -/
def _run_companion_body (arguments : List String) (t : Int)
    (cb : CommandBehavior) : Outcome String :=
  if cb.completionTime ≤ t then
    if cb.returncode ≠ 0 then .error (.idbCommandFailed arguments)
    else .ok cb.stdout
  else .error (.idbCommandTimeout arguments t)

/-- Method `_run_companion_command(arguments, timeout)`: resolves the timeout by
Python truthiness against the configured command timeout, then runs the
command body inside the scoped process acquisition. -/
def _run_companion_command (platform : String) (c : Companion)
    (arguments : List String) (timeout : Option Int) (cb : CommandBehavior)
    (tb : TeardownBehavior) : Outcome String × List Event :=
  let t := pyOr timeout c.companion_command_timeout
  _start_companion_command platform c arguments (_run_companion_body arguments t cb) tb

/-- An exception-raising result escaping into the surrounding coroutine. -/
def exceptToOutcome : Except PyErr α → Outcome α
  | .ok a => .ok a
  | .error e => .error e

/-- Parser `target_description_from_json` lives in `idb/common/format.py`, which
is not under `src/`; the catalog operations are therefore parametric in the
line parser, a function from one line of text to a parsed record or a
raised exception. -/
def LineParser (T : Type) : Type := String → Except PyErr T

/-- The semantics of a Python list comprehension `[parse(l) for l in ls]`
whose element expression may raise: elements are parsed left to right and
the first raised exception aborts the whole comprehension — no partial list
is produced. -/
def parseAll (parse : LineParser T) : List String → Except PyErr (List T)
  | [] => .ok []
  | l :: ls =>
    match parse l with
    | .error e => .error e
    | .ok t =>
      match parseAll parse ls with
      | .error e => .error e
      | .ok ts => .ok (t :: ts)

/-- The lines kept by the comprehension inside `list_targets`
`[... for line in output.splitlines() if len(line.strip())]`: each line is
stripped and kept only when the stripped form is non-empty (the parser
receives `line.strip()`). -/
def keptLines (output : String) : List String :=
  (pySplitlines output).filterMap fun l =>
    if (pyStrip l).length = 0 then none else some (pyStrip l)

/-- Method `list_targets(only, timeout)`: builds `["--list", "1"] + only-args`,
runs the companion command, splits the output into lines and parses every
kept line with `target_description_from_json`. -/
def list_targets (platform : String) (c : Companion) (only : Option OnlyFilter)
    (timeout : Option Int) (cb : CommandBehavior) (tb : TeardownBehavior)
    (parse : LineParser T) : Outcome (List T) × List Event :=
  let (r, ev) := _run_companion_command platform c
    (["--list", "1"] ++ _only_arg_from_filter only) timeout cb tb
  (match r with
   | .ok output => exceptToOutcome (parseAll parse (keptLines output))
   | .error e => .error e
   | .cancelled => .cancelled, ev)

/-- The result-parsing step shared by `create` and `clone`:
`target_description_from_json(output.splitlines()[-1])`.  Python `[-1]` on
the empty list raises `IndexError`; otherwise the LAST line of
`splitlines()` — empty or not — is handed to the parser. -/
def _create_parse (parse : LineParser T) (output : String) : Except PyErr T :=
  match (pySplitlines output).getLast? with
  | none => .error .indexError
  | some l => parse l

/-- Method `create(device_type, os_version, timeout)`: runs
`["--create", f"{device_type},{os_version}"]` and parses the result
from the command output. -/
def create (platform : String) (c : Companion) (device_type os_version : String)
    (timeout : Option Int) (cb : CommandBehavior) (tb : TeardownBehavior)
    (parse : LineParser T) : Outcome T × List Event :=
  let (r, ev) := _run_companion_command platform c
    ["--create", device_type ++ "," ++ os_version] timeout cb tb
  (match r with
   | .ok output => exceptToOutcome (_create_parse parse output)
   | .error e => .error e
   | .cancelled => .cancelled, ev)

/-- Method `clone(udid, destination_device_set, timeout)`: runs
`["--clone", udid] (+ ["--clone-destination-set", d])` and parses the
result from the command output the same way `create` does. -/
def clone (platform : String) (c : Companion) (udid : String)
    (destination_device_set : Option String) (timeout : Option Int)
    (cb : CommandBehavior) (tb : TeardownBehavior) (parse : LineParser T) :
    Outcome T × List Event :=
  let (r, ev) := _run_companion_command platform c
    (["--clone", udid] ++
      (match destination_device_set with
       | some d => ["--clone-destination-set", d]
       | none => [])) timeout cb tb
  (match r with
   | .ok output => exceptToOutcome (_create_parse parse output)
   | .error e => .error e
   | .cancelled => .cancelled, ev)

/-- The parse step the spec describes for `create`/`clone`, written from
the words of the spec for comparison with `_create_parse`: "parses the last
NON-EMPTY line of output". -/
def _create_parse_spec (parse : LineParser T) (output : String) : Except PyErr T :=
  match ((pySplitlines output).filter fun l => l ≠ "").getLast? with
  | none => .error .indexError
  | some l => parse l

/-- The last non-empty line of an output string, as the wording of the spec for
`create`/`clone` selects it. -/
def lastNonEmptyLine (output : String) : Option String :=
  ((pySplitlines output).filter fun l => l ≠ "").getLast?

/-- The `details` list of `target_description(udid, only, timeout)`: the
listing filtered down to the entries matching `udid`, or the whole listing
when no `udid` is given. -/
def matchingDetails (udid : Option String)
    (all_details : List TargetDescription) : List TargetDescription :=
  match udid with
  | none => all_details
  | some u => all_details.filter fun t => t.udid = u

/-- The raise-or-return tail of `target_description`: more than one match
raises, zero matches raises, otherwise `details[0]` is returned. -/
def _select_target (udid : Option String)
    (all_details : List TargetDescription) : Except PyErr TargetDescription :=
  let details := matchingDetails udid all_details
  if details.length > 1 then .error (.idbMoreThanOne details)
  else
    match details with
    | [] => .error (.idbNoneFound all_details)
    | d :: _ => .ok d

/-- Method `target_description(udid, only, timeout)`: calls `list_targets` and
selects from the resulting listing. -/
def target_description (platform : String) (c : Companion)
    (udid : Option String) (only : Option OnlyFilter) (timeout : Option Int)
    (cb : CommandBehavior) (tb : TeardownBehavior)
    (parse : LineParser TargetDescription) :
    Outcome TargetDescription × List Event :=
  let (r, ev) := list_targets platform c only timeout cb tb parse
  (match r with
   | .ok all_details => exceptToOutcome (_select_target udid all_details)
   | .error e => .error e
   | .cancelled => .cancelled, ev)

/-- The handshake-and-session body of the `unix_domain_server` context
manager: the first stdout line is parsed by `parse_json_line`; then
`output.get("grpc_path")` must produce a value (a key absent, or present
with JSON `null`, gives Python `None`) or
`IdbException(f"No grpc_path in {line}")` is raised; on success the path is
yielded to the session body of the caller. -/
def _unix_domain_server_body (loads : JsonLoads) (firstLine : List Nat)
    (session : PyVal → Outcome α) : Outcome α :=
  match parse_json_line loads firstLine with
  | .error e => .error e
  | .ok obj =>
    match obj.lookup "grpc_path" with
    | none => .error (.idbNoGrpcPath firstLine)
    | some PyVal.null => .error (.idbNoGrpcPath firstLine)
    | some v => session v

/-- Method `unix_domain_server(udid, path, only)`: spawns
`["--udid", udid, "--grpc-domain-sock", path] + only-args` inside the
scoped acquisition and runs the handshake-and-session body; `firstLine` is
what `process.stdout.readline()` returns and `session` is the use the caller makes
of the yielded socket path. -/
def unix_domain_server (platform : String) (c : Companion)
    (udid path : String) (only : Option OnlyFilter) (loads : JsonLoads)
    (firstLine : List Nat) (session : PyVal → Outcome α)
    (tb : TeardownBehavior) : Outcome α × List Event :=
  _start_companion_command platform c
    (["--udid", udid, "--grpc-domain-sock", path] ++ _only_arg_from_filter only)
    (_unix_domain_server_body loads firstLine session) tb

/-! ### Demonstration instances used by witnesses and counterexamples -/

/-- A concrete configured companion for witness instantiations. -/
def demoCompanion : Companion :=
  { companion_path := some "/usr/local/bin/idb_companion"
    device_set_path := none }

/-- A concrete line parser over plain strings: fails on the empty line,
succeeds with the line itself otherwise. -/
def demoStringParser : LineParser String := fun l =>
  if l = "" then .error (.idbJson l) else .ok l

/-! ### Claim theorems -/

/-- C1: Teardown escalation of `_terminate_process`: for every process
handle, if the process has already exited when teardown starts, no signal
is sent and teardown returns immediately; otherwise SIGTERM is sent and
teardown waits up to the teardown timeout; if the process exits within the
timeout no forceful signal is sent, and if the wait exceeds the timeout
SIGKILL is sent exactly once. -/
theorem terminate_process_escalation (rc : Int) (ex : Bool) :
    _terminate_process ⟨some rc, ex⟩ = [] ∧
    _terminate_process ⟨none, true⟩ = [Signal.sigterm] ∧
    _terminate_process ⟨none, false⟩ = [Signal.sigterm, Signal.sigkill] ∧
    (_terminate_process ⟨none, false⟩).count Signal.sigkill = 1 ∧
    (_terminate_process ⟨none, true⟩).count Signal.sigkill = 0 ∧
    (_terminate_process ⟨some rc, ex⟩).count Signal.sigkill = 0 := by
  exact ⟨rfl, rfl, rfl, rfl, rfl, rfl⟩

/-- Witness for C1 at a concrete exit code. -/
theorem terminate_process_escalation_witness :
    _terminate_process ⟨some 0, true⟩ = [] ∧
    _terminate_process ⟨none, true⟩ = [Signal.sigterm] ∧
    _terminate_process ⟨none, false⟩ = [Signal.sigterm, Signal.sigkill] ∧
    (_terminate_process ⟨none, false⟩).count Signal.sigkill = 1 ∧
    (_terminate_process ⟨none, true⟩).count Signal.sigkill = 0 ∧
    (_terminate_process ⟨some 0, true⟩).count Signal.sigkill = 0 :=
  terminate_process_escalation 0 true

/-- C2: for every companion invocation in which the spawn happens (a
companion path is configured), exactly one teardown call occurs on every
exit path of the caller body (normal return, raised error, cancellation),
the body outcome is propagated unchanged, and the teardown call sits
strictly before the point where the caller observes the outcome (the
`observe` event is last, the teardown call is among the events before it);
the spawn event occurs exactly once (no leaked handle). -/
theorem start_companion_scoped_teardown {α : Type} (platform p : String)
    (c : Companion) (args : List String) (body : Outcome α)
    (tb : TeardownBehavior) (h : c.companion_path = some p) :
    (_start_companion_command platform c args body tb).1 = body ∧
    (_start_companion_command platform c args body tb).2 =
      Event.spawn (buildCmd p c.device_set_path args) ::
        Event.teardownCall :: ((_terminate_process tb).map Event.sig ++ [Event.observe]) ∧
    (_start_companion_command platform c args body tb).2.count Event.teardownCall = 1 ∧
    (_start_companion_command platform c args body tb).2.count
      (Event.spawn (buildCmd p c.device_set_path args)) = 1 ∧
    (_start_companion_command platform c args body tb).2.getLast? = some Event.observe ∧
    Event.teardownCall ∈ (_start_companion_command platform c args body tb).2.dropLast := by
  obtain ⟨rc, ex⟩ := tb
  simp only [_start_companion_command, h]
  rcases rc with _ | r <;> rcases ex <;>
    simp [_terminate_process, List.count_cons, List.getLast?]

/-- Witness for C2: a concrete invocation with an error body outcome. -/
theorem start_companion_scoped_teardown_witness :
    (_start_companion_command "darwin" demoCompanion ["--list", "1"]
      (Outcome.error (PyErr.idbCommandFailed ["--list", "1"]) : Outcome String)
      ⟨none, false⟩).1 =
      Outcome.error (PyErr.idbCommandFailed ["--list", "1"]) ∧
    (_start_companion_command "darwin" demoCompanion ["--list", "1"]
      (Outcome.error (PyErr.idbCommandFailed ["--list", "1"]) : Outcome String)
      ⟨none, false⟩).2 =
      Event.spawn (buildCmd "/usr/local/bin/idb_companion" none ["--list", "1"]) ::
        Event.teardownCall ::
          ((_terminate_process ⟨none, false⟩).map Event.sig ++ [Event.observe]) ∧
    (_start_companion_command "darwin" demoCompanion ["--list", "1"]
      (Outcome.error (PyErr.idbCommandFailed ["--list", "1"]) : Outcome String)
      ⟨none, false⟩).2.count Event.teardownCall = 1 ∧
    (_start_companion_command "darwin" demoCompanion ["--list", "1"]
      (Outcome.error (PyErr.idbCommandFailed ["--list", "1"]) : Outcome String)
      ⟨none, false⟩).2.count
      (Event.spawn (buildCmd "/usr/local/bin/idb_companion" none ["--list", "1"])) = 1 ∧
    (_start_companion_command "darwin" demoCompanion ["--list", "1"]
      (Outcome.error (PyErr.idbCommandFailed ["--list", "1"]) : Outcome String)
      ⟨none, false⟩).2.getLast? = some Event.observe ∧
    Event.teardownCall ∈
      (_start_companion_command "darwin" demoCompanion ["--list", "1"]
        (Outcome.error (PyErr.idbCommandFailed ["--list", "1"]) : Outcome String)
        ⟨none, false⟩).2.dropLast :=
  start_companion_scoped_teardown "darwin" "/usr/local/bin/idb_companion"
    demoCompanion ["--list", "1"] _ ⟨none, false⟩ rfl

/-- C3: `_run_companion_command` has exactly three outcomes: completion
within the resolved timeout with exit code zero returns the full captured
stdout; completion within the timeout with nonzero exit code fails with the
`Failed to run {arguments}` exception carrying the argument list (never the
timeout exception); exceeding the timeout fails with the timeout exception
carrying the arguments and the resolved timeout (never the command-failure
exception). -/
theorem run_companion_command_outcomes (platform p : String) (c : Companion)
    (arguments : List String) (timeout : Option Int) (cb : CommandBehavior)
    (tb : TeardownBehavior) (h : c.companion_path = some p) :
    (cb.completionTime ≤ pyOr timeout c.companion_command_timeout →
      cb.returncode = 0 →
      (_run_companion_command platform c arguments timeout cb tb).1 =
        Outcome.ok cb.stdout) ∧
    (cb.completionTime ≤ pyOr timeout c.companion_command_timeout →
      cb.returncode ≠ 0 →
      (_run_companion_command platform c arguments timeout cb tb).1 =
        Outcome.error (PyErr.idbCommandFailed arguments)) ∧
    (cb.completionTime ≤ pyOr timeout c.companion_command_timeout →
      cb.returncode ≠ 0 → ∀ a t2,
      (_run_companion_command platform c arguments timeout cb tb).1 ≠
        Outcome.error (PyErr.idbCommandTimeout a t2)) ∧
    (pyOr timeout c.companion_command_timeout < cb.completionTime →
      (_run_companion_command platform c arguments timeout cb tb).1 =
        Outcome.error
          (PyErr.idbCommandTimeout arguments (pyOr timeout c.companion_command_timeout))) ∧
    (pyOr timeout c.companion_command_timeout < cb.completionTime → ∀ a,
      (_run_companion_command platform c arguments timeout cb tb).1 ≠
        Outcome.error (PyErr.idbCommandFailed a)) := by
  have hbody : (_run_companion_command platform c arguments timeout cb tb).1 =
      _run_companion_body arguments (pyOr timeout c.companion_command_timeout) cb := by
    simp [_run_companion_command, _start_companion_command, h]
  refine ⟨?_, ?_, ?_, ?_, ?_⟩
  · intro h1 h2
    rw [hbody]; simp [_run_companion_body, h1, h2]
  · intro h1 h2
    rw [hbody]; simp [_run_companion_body, h1, h2]
  · intro h1 h2 a t2
    rw [hbody]; simp [_run_companion_body, h1, h2]
  · intro h1
    rw [hbody]; simp [_run_companion_body, not_le.mpr h1]
  · intro h1 a
    rw [hbody]; simp [_run_companion_body, not_le.mpr h1]

/-- Witness for C3 at concrete behaviours: exit 0 within the timeout, exit
1 within the timeout, and a hang past the timeout. -/
theorem run_companion_command_outcomes_witness :
    ((⟨5, "out", 0⟩ : CommandBehavior).completionTime ≤
        pyOr none demoCompanion.companion_command_timeout →
      (⟨5, "out", 0⟩ : CommandBehavior).returncode = 0 →
      (_run_companion_command "darwin" demoCompanion ["--boot", "U"] none
        ⟨5, "out", 0⟩ ⟨some 0, true⟩).1 = Outcome.ok "out") ∧
    ((⟨5, "out", 0⟩ : CommandBehavior).completionTime ≤
        pyOr none demoCompanion.companion_command_timeout →
      (⟨5, "out", 0⟩ : CommandBehavior).returncode ≠ 0 →
      (_run_companion_command "darwin" demoCompanion ["--boot", "U"] none
        ⟨5, "out", 0⟩ ⟨some 0, true⟩).1 =
        Outcome.error (PyErr.idbCommandFailed ["--boot", "U"])) ∧
    ((⟨5, "out", 0⟩ : CommandBehavior).completionTime ≤
        pyOr none demoCompanion.companion_command_timeout →
      (⟨5, "out", 0⟩ : CommandBehavior).returncode ≠ 0 → ∀ a t2,
      (_run_companion_command "darwin" demoCompanion ["--boot", "U"] none
        ⟨5, "out", 0⟩ ⟨some 0, true⟩).1 ≠
        Outcome.error (PyErr.idbCommandTimeout a t2)) ∧
    (pyOr none demoCompanion.companion_command_timeout <
        (⟨5, "out", 0⟩ : CommandBehavior).completionTime →
      (_run_companion_command "darwin" demoCompanion ["--boot", "U"] none
        ⟨5, "out", 0⟩ ⟨some 0, true⟩).1 =
        Outcome.error
          (PyErr.idbCommandTimeout ["--boot", "U"]
            (pyOr none demoCompanion.companion_command_timeout))) ∧
    (pyOr none demoCompanion.companion_command_timeout <
        (⟨5, "out", 0⟩ : CommandBehavior).completionTime → ∀ a,
      (_run_companion_command "darwin" demoCompanion ["--boot", "U"] none
        ⟨5, "out", 0⟩ ⟨some 0, true⟩).1 ≠
        Outcome.error (PyErr.idbCommandFailed a)) :=
  run_companion_command_outcomes "darwin" "/usr/local/bin/idb_companion"
    demoCompanion ["--boot", "U"] none ⟨5, "out", 0⟩ ⟨some 0, true⟩ rfl

/-- C4: for every invocation, if no companion executable path is
configured, the operation fails immediately with the configuration
exception — the platform-specific variant on non-macOS hosts — and no
child process is ever spawned (no `spawn` event occurs). -/
theorem no_companion_path_never_spawns {α : Type} (platform : String)
    (c : Companion) (args : List String) (body : Outcome α)
    (tb : TeardownBehavior) (h : c.companion_path = none) :
    (_start_companion_command platform c args body tb).1 =
      Outcome.error
        (if platform = "darwin" then PyErr.idbNoCompanionPath
         else PyErr.idbNonMacPlatform) ∧
    (platform ≠ "darwin" →
      (_start_companion_command platform c args body tb).1 =
        Outcome.error PyErr.idbNonMacPlatform) ∧
    (platform = "darwin" →
      (_start_companion_command platform c args body tb).1 =
        Outcome.error PyErr.idbNoCompanionPath) ∧
    (∀ cmd, Event.spawn cmd ∉ (_start_companion_command platform c args body tb).2) := by
  refine ⟨?_, ?_, ?_, ?_⟩
  · simp [_start_companion_command, h]
  · intro hp; simp [_start_companion_command, h, hp]
  · intro hp; simp [_start_companion_command, h, hp]
  · intro cmd; simp [_start_companion_command, h]

/-- Witness for C4 on a non-macOS host with no configured path. -/
theorem no_companion_path_never_spawns_witness :
    (_start_companion_command "linux" ⟨none, none, 120, 30⟩ ["--list", "1"]
      (Outcome.ok "unused") ⟨none, true⟩).1 =
      Outcome.error
        (if "linux" = "darwin" then PyErr.idbNoCompanionPath
         else PyErr.idbNonMacPlatform) ∧
    ("linux" ≠ "darwin" →
      (_start_companion_command "linux" ⟨none, none, 120, 30⟩ ["--list", "1"]
        (Outcome.ok "unused") ⟨none, true⟩).1 =
        Outcome.error PyErr.idbNonMacPlatform) ∧
    ("linux" = "darwin" →
      (_start_companion_command "linux" ⟨none, none, 120, 30⟩ ["--list", "1"]
        (Outcome.ok "unused") ⟨none, true⟩).1 =
        Outcome.error PyErr.idbNoCompanionPath) ∧
    (∀ cmd, Event.spawn cmd ∉
      (_start_companion_command "linux" ⟨none, none, 120, 30⟩ ["--list", "1"]
        (Outcome.ok "unused") ⟨none, true⟩).2) :=
  no_companion_path_never_spawns "linux" ⟨none, none, 120, 30⟩ ["--list", "1"]
    (Outcome.ok "unused") ⟨none, true⟩ rfl

/-- C10: passing `timeout=0` to a one-shot command behaves identically to
passing no timeout at all, because `timeout or self._companion_command_timeout`
falls back on any falsy value: the configured command timeout (default
`DEFAULT_COMPANION_COMMAND_TIMEOUT = 120`) is applied, and a timeout
failure can only ever carry that fallback value — never an immediate
zero-second timeout. -/
theorem zero_timeout_falls_back_to_default (platform : String) (c : Companion)
    (args : List String) (cb : CommandBehavior) (tb : TeardownBehavior) :
    _run_companion_command platform c args (some 0) cb tb =
      _run_companion_command platform c args none cb tb ∧
    pyOr (some 0) c.companion_command_timeout = c.companion_command_timeout ∧
    pyOr none c.companion_command_timeout = c.companion_command_timeout ∧
    DEFAULT_COMPANION_COMMAND_TIMEOUT = 120 ∧
    (∀ a t2,
      (_run_companion_command platform c args (some 0) cb tb).1 =
        Outcome.error (PyErr.idbCommandTimeout a t2) →
      t2 = c.companion_command_timeout) := by
  have hpy : pyOr (some 0) c.companion_command_timeout = c.companion_command_timeout := rfl
  refine ⟨?_, rfl, rfl, rfl, ?_⟩
  · simp [_run_companion_command, pyOr]
  · intro a t2 hres
    rcases hc : c.companion_path with _ | p
    · simp [_run_companion_command, _start_companion_command, hc] at hres
      split at hres <;> simp_all
    · simp [_run_companion_command, _start_companion_command, hc, hpy,
        _run_companion_body] at hres
      split at hres <;>
        first
        | (split at hres <;> simp_all)
        | simp_all

/-! ### Helper lemmas (shared) -/

/-- Holds iff the `Except` result is a success. -/
def isOkE : Except PyErr α → Bool
  | .ok _ => true
  | .error _ => false

@[simp] theorem isOkE_ok (a : α) :
    isOkE (Except.ok a : Except PyErr α) = true := rfl

@[simp] theorem isOkE_error (e : PyErr) :
    isOkE (Except.error e : Except PyErr α) = false := rfl

/-- A comprehension succeeds iff every element parses. -/
theorem parseAll_isOk_iff (parse : LineParser T) (ls : List String) :
    isOkE (parseAll parse ls) = true ↔ ∀ l ∈ ls, isOkE (parse l) = true := by
  induction ls with
  | nil => simp [parseAll]
  | cons l ls ih =>
    rcases hl : parse l with e | t
    · simp only [parseAll, hl, isOkE_error, Bool.false_eq_true, false_iff, not_forall]
      refine ⟨l, ?_⟩
      simp [hl]
    · rcases hall : parseAll parse ls with e2 | ts
      · simp only [parseAll, hl, hall, isOkE_error, Bool.false_eq_true, false_iff]
        intro h
        have h2 : isOkE (parseAll parse ls) = true :=
          ih.mpr fun x hx => h x (List.mem_cons_of_mem l hx)
        rw [hall] at h2
        simp at h2
      · simp only [parseAll, hl, hall, isOkE_ok, true_iff]
        intro x hx
        rcases List.mem_cons.mp hx with rfl | hx
        · simp [hl]
        · exact ih.mp (by rw [hall]; rfl) x hx

/-- If every element parses to `f l`, the comprehension returns the map. -/
theorem parseAll_map (parse : LineParser T) (f : String → T) (ls : List String)
    (h : ∀ l ∈ ls, parse l = .ok (f l)) :
    parseAll parse ls = .ok (ls.map f) := by
  induction ls with
  | nil => rfl
  | cons l ls ih =>
    have hl := h l (List.mem_cons_self l ls)
    have hrest := ih fun x hx => h x (List.mem_cons_of_mem l hx)
    simp [parseAll, hl, hrest]

/-- Reduction of `_run_companion_command` on the success path. -/
theorem run_companion_ok (platform p : String) (c : Companion)
    (args : List String) (timeout : Option Int) (cb : CommandBehavior)
    (tb : TeardownBehavior) (h : c.companion_path = some p)
    (h1 : cb.completionTime ≤ pyOr timeout c.companion_command_timeout)
    (h2 : cb.returncode = 0) :
    (_run_companion_command platform c args timeout cb tb).1 =
      Outcome.ok cb.stdout := by
  simp [_run_companion_command, _start_companion_command, h,
    _run_companion_body, h1, h2]

/-- Every kept line of `list_targets` is non-empty. -/
theorem keptLines_ne_empty (output : String) :
    ∀ l ∈ keptLines output, l ≠ "" := by
  intro l hl
  simp only [keptLines, List.mem_filterMap] at hl
  obtain ⟨orig, _, hkeep⟩ := hl
  by_cases hz : (pyStrip orig).length = 0
  · simp [hz] at hkeep
  · simp [hz] at hkeep
    subst hkeep
    intro hcontr
    exact hz (by simp [hcontr])

/-- Reduction of `list_targets` on the command success path. -/
theorem list_targets_reduction (platform p : String) (c : Companion)
    (only : Option OnlyFilter) (timeout : Option Int) (cb : CommandBehavior)
    (tb : TeardownBehavior) (parse : LineParser T)
    (h : c.companion_path = some p)
    (h1 : cb.completionTime ≤ pyOr timeout c.companion_command_timeout)
    (h2 : cb.returncode = 0) :
    (list_targets platform c only timeout cb tb parse).1 =
      exceptToOutcome (parseAll parse (keptLines cb.stdout)) := by
  have hr := run_companion_ok platform p c
    (["--list", "1"] ++ _only_arg_from_filter only) timeout cb tb h h1 h2
  simp only [List.cons_append, List.nil_append] at hr
  simp [list_targets, hr]

/-- C5: on a successful `--list` run, `list_targets` parses every kept
(non-blank) line of the command output independently and is all-or-nothing:
the call succeeds iff every kept line parses; if any kept line is malformed
no list at all is returned; when all lines parse the result is exactly the
per-line parses in order; and blank lines are skipped (every kept line is
non-empty). -/
theorem list_targets_all_or_nothing (platform p : String) (c : Companion)
    (only : Option OnlyFilter) (timeout : Option Int) (cb : CommandBehavior)
    (tb : TeardownBehavior) (parse : LineParser T)
    (h : c.companion_path = some p)
    (h1 : cb.completionTime ≤ pyOr timeout c.companion_command_timeout)
    (h2 : cb.returncode = 0) :
    ((list_targets platform c only timeout cb tb parse).1.isOk = true ↔
      ∀ l ∈ keptLines cb.stdout, isOkE (parse l) = true) ∧
    (∀ l ∈ keptLines cb.stdout, ∀ e, parse l = Except.error e →
      ∀ ts, (list_targets platform c only timeout cb tb parse).1 ≠ Outcome.ok ts) ∧
    (∀ f : String → T, (∀ l ∈ keptLines cb.stdout, parse l = Except.ok (f l)) →
      (list_targets platform c only timeout cb tb parse).1 =
        Outcome.ok ((keptLines cb.stdout).map f)) ∧
    (∀ l ∈ keptLines cb.stdout, l ≠ "") := by
  have hred := list_targets_reduction platform p c only timeout cb tb parse h h1 h2
  have hiff := parseAll_isOk_iff parse (keptLines cb.stdout)
  refine ⟨?_, ?_, ?_, keptLines_ne_empty cb.stdout⟩
  · rw [hred, ← hiff]
    rcases parseAll parse (keptLines cb.stdout) with e | ts <;>
      simp [exceptToOutcome, Outcome.isOk]
  · intro l hl e he ts hcontr
    rw [hred] at hcontr
    have hOk : isOkE (parseAll parse (keptLines cb.stdout)) = true := by
      rcases hp : parseAll parse (keptLines cb.stdout) with e2 | ts2
      · rw [hp] at hcontr; simp [exceptToOutcome] at hcontr
      · simp
    have := hiff.mp hOk l hl
    rw [he] at this
    simp at this
  · intro f hf
    rw [hred, parseAll_map parse f (keptLines cb.stdout) hf]
    rfl

/-- Witness for C5: output with two well-formed lines and one blank line. -/
theorem list_targets_all_or_nothing_witness :
    ((list_targets "darwin" demoCompanion none none ⟨5, "A\n\nB\n", 0⟩
        ⟨some 0, true⟩ demoStringParser).1.isOk = true ↔
      ∀ l ∈ keptLines "A\n\nB\n", isOkE (demoStringParser l) = true) ∧
    (∀ l ∈ keptLines "A\n\nB\n", ∀ e, demoStringParser l = Except.error e →
      ∀ ts, (list_targets "darwin" demoCompanion none none ⟨5, "A\n\nB\n", 0⟩
        ⟨some 0, true⟩ demoStringParser).1 ≠ Outcome.ok ts) ∧
    (∀ f : String → String,
      (∀ l ∈ keptLines "A\n\nB\n", demoStringParser l = Except.ok (f l)) →
      (list_targets "darwin" demoCompanion none none ⟨5, "A\n\nB\n", 0⟩
        ⟨some 0, true⟩ demoStringParser).1 =
        Outcome.ok ((keptLines "A\n\nB\n").map f)) ∧
    (∀ l ∈ keptLines "A\n\nB\n", l ≠ "") :=
  list_targets_all_or_nothing "darwin" "/usr/local/bin/idb_companion"
    demoCompanion none none ⟨5, "A\n\nB\n", 0⟩ ⟨some 0, true⟩ demoStringParser
    rfl (by decide) rfl

/-- A concrete target record for witness instantiations. -/
def demoTarget (u : String) : TargetDescription :=
  ⟨u, "iPhone 11", "Booted", "simulator", "13.0", "x86_64"⟩

/-- C7: the selection step of `target_description` over any listing: after
filtering to the entries matching the given udid (or taking the whole
listing when no udid is given), more than one remaining match fails with
the more-than-one inconsistency error, zero remaining matches fails with
the none-found inconsistency error, and exactly one match returns that
entry; moreover, on a successful listing run the full `target_description`
is exactly this selection applied to the parsed listing. -/
theorem target_description_selection (udid : Option String)
    (all : List TargetDescription) :
    (∀ d, matchingDetails udid all = [d] →
      _select_target udid all = Except.ok d) ∧
    ((matchingDetails udid all).length > 1 →
      _select_target udid all =
        Except.error (PyErr.idbMoreThanOne (matchingDetails udid all))) ∧
    (matchingDetails udid all = [] →
      _select_target udid all = Except.error (PyErr.idbNoneFound all)) ∧
    (∀ u, udid = some u →
      matchingDetails udid all = all.filter fun t => t.udid = u) ∧
    (udid = none → matchingDetails udid all = all) ∧
    (∀ platform p c only timeout cb tb parse,
      c.companion_path = some p →
      cb.completionTime ≤ pyOr timeout c.companion_command_timeout →
      cb.returncode = 0 →
      parseAll parse (keptLines cb.stdout) = Except.ok all →
      (target_description platform c udid only timeout cb tb parse).1 =
        exceptToOutcome (_select_target udid all)) := by
  refine ⟨?_, ?_, ?_, ?_, ?_, ?_⟩
  · intro d hd
    simp [_select_target, hd]
  · intro hlen
    simp [_select_target, hlen]
  · intro hnil
    simp [_select_target, hnil]
  · intro u hu
    simp [matchingDetails, hu]
  · intro hu
    simp [matchingDetails, hu]
  · intro platform p c only timeout cb tb parse hp h1 h2 hparse
    have hred := list_targets_reduction platform p c only timeout cb tb parse hp h1 h2
    simp [target_description, hred, hparse, exceptToOutcome]

/-- Witness for C7: two matching entries fail, one matching entry is
returned, zero matching entries fail. -/
theorem target_description_selection_witness :
    (_select_target (some "X") [demoTarget "X", demoTarget "X"] =
      Except.error
        (PyErr.idbMoreThanOne
          (matchingDetails (some "X") [demoTarget "X", demoTarget "X"]))) ∧
    (_select_target (some "X") [demoTarget "X", demoTarget "Y"] =
      Except.ok (demoTarget "X")) ∧
    (_select_target (some "X") [demoTarget "Y"] =
      Except.error (PyErr.idbNoneFound [demoTarget "Y"])) := by
  refine ⟨?_, ?_, ?_⟩
  · exact (target_description_selection (some "X")
      [demoTarget "X", demoTarget "X"]).2.1 (by decide)
  · exact (target_description_selection (some "X")
      [demoTarget "X", demoTarget "Y"]).1 (demoTarget "X") (by decide)
  · exact (target_description_selection (some "X")
      [demoTarget "Y"]).2.2.1 (by decide)

/-- If the last element of a list satisfies the predicate, filtering by the
predicate preserves the last element. -/
theorem getLast_filter_of_pred (P : String → Bool) :
    ∀ (l : List String) (x : String), l.getLast? = some x → P x = true →
      (l.filter P).getLast? = some x := by
  intro l
  induction l with
  | nil => intro x h; cases h
  | cons a t ih =>
    intro x h hx
    rcases t with _ | ⟨b, t2⟩
    · simp only [List.getLast?_singleton, Option.some.injEq] at h
      subst h
      simp [List.filter, hx]
    · rw [List.getLast?_cons_cons] at h
      have htail := ih x h hx
      by_cases ha : P a = true
      · rw [List.filter_cons_of_pos ha]
        rcases hf : List.filter P (b :: t2) with _ | ⟨c, t3⟩
        · rw [hf] at htail; cases htail
        · rw [hf] at htail
          rw [List.getLast?_cons_cons, htail]
      · rw [List.filter_cons_of_neg (by simpa using ha)]
        exact htail

/-- Reduction of `create` on the command success path. -/
theorem create_reduction (platform p : String) (c : Companion)
    (device_type os_version : String) (timeout : Option Int)
    (cb : CommandBehavior) (tb : TeardownBehavior) (parse : LineParser T)
    (h : c.companion_path = some p)
    (h1 : cb.completionTime ≤ pyOr timeout c.companion_command_timeout)
    (h2 : cb.returncode = 0) :
    (create platform c device_type os_version timeout cb tb parse).1 =
      exceptToOutcome (_create_parse parse cb.stdout) := by
  have hr := run_companion_ok platform p c
    ["--create", device_type ++ "," ++ os_version] timeout cb tb h h1 h2
  simp [create, hr]

/-- Reduction of `clone` on the command success path. -/
theorem clone_reduction (platform p : String) (c : Companion)
    (udid : String) (dest : Option String) (timeout : Option Int)
    (cb : CommandBehavior) (tb : TeardownBehavior) (parse : LineParser T)
    (h : c.companion_path = some p)
    (h1 : cb.completionTime ≤ pyOr timeout c.companion_command_timeout)
    (h2 : cb.returncode = 0) :
    (clone platform c udid dest timeout cb tb parse).1 =
      exceptToOutcome (_create_parse parse cb.stdout) := by
  have hr := run_companion_ok platform p c
    (["--clone", udid] ++
      (match dest with
       | some d => ["--clone-destination-set", d]
       | none => [])) timeout cb tb h h1 h2
  simp only [List.cons_append, List.nil_append] at hr
  simp [clone, hr]

/-- Counterexample to C6 as stated: for captured stdout `"A\n\n"` (a
result line followed by a trailing blank line), `splitlines()` is
`["A", ""]`, so `create` hands the empty LAST line to the parser and the
call fails, even though the last NON-empty line `"A"` parses fine — the
returned record does not come from the last non-empty line. -/
theorem create_last_line_counterexample :
    (create "darwin" demoCompanion "iPhone 11" "13.0" none ⟨5, "A\n\n", 0⟩
      ⟨some 0, true⟩ demoStringParser).1 = Outcome.error (PyErr.idbJson "") ∧
    lastNonEmptyLine "A\n\n" = some "A" ∧
    demoStringParser "A" = Except.ok "A" ∧
    (create "darwin" demoCompanion "iPhone 11" "13.0" none ⟨5, "A\n\n", 0⟩
      ⟨some 0, true⟩ demoStringParser).1 ≠
      exceptToOutcome (demoStringParser "A") := by
  refine ⟨by decide, by decide, by decide, by decide⟩

/-- C6 (amended): `create` and `clone` parse the LAST element of the
output of `splitlines()` — which coincides with the last non-empty line
exactly when the output does not end in extra blank lines (a single
trailing newline is fine) — ignoring any preceding progress lines; in
particular for `"progress: 50%\n<json>\n"` the returned record comes from
the final JSON line. -/
theorem create_clone_parse_last_line (platform p : String) (c : Companion)
    (device_type os_version udid : String) (dest : Option String)
    (timeout : Option Int) (cb : CommandBehavior) (tb : TeardownBehavior)
    (parse : LineParser T) (l : String)
    (h : c.companion_path = some p)
    (h1 : cb.completionTime ≤ pyOr timeout c.companion_command_timeout)
    (h2 : cb.returncode = 0)
    (hlast : (pySplitlines cb.stdout).getLast? = some l)
    (hne : l ≠ "") :
    (create platform c device_type os_version timeout cb tb parse).1 =
      exceptToOutcome (parse l) ∧
    (clone platform c udid dest timeout cb tb parse).1 =
      exceptToOutcome (parse l) ∧
    lastNonEmptyLine cb.stdout = some l := by
  have hparse : _create_parse parse cb.stdout = parse l := by
    simp [_create_parse, hlast]
  refine ⟨?_, ?_, ?_⟩
  · rw [create_reduction platform p c device_type os_version timeout cb tb parse
      h h1 h2, hparse]
  · rw [clone_reduction platform p c udid dest timeout cb tb parse h h1 h2,
      hparse]
  · exact getLast_filter_of_pred _ (pySplitlines cb.stdout) l hlast
      (by simp [hne])

/-- Witness for the amended C6 at the example output of the claim
`"progress: 50%\n<result>\n"`: the record comes from the final line. -/
theorem create_clone_parse_last_line_witness :
    (create "darwin" demoCompanion "iPhone 11" "13.0" none
      ⟨5, "progress: 50%\nRESULT\n", 0⟩ ⟨some 0, true⟩ demoStringParser).1 =
      exceptToOutcome (demoStringParser "RESULT") ∧
    (clone "darwin" demoCompanion "UDID" none none
      ⟨5, "progress: 50%\nRESULT\n", 0⟩ ⟨some 0, true⟩ demoStringParser).1 =
      exceptToOutcome (demoStringParser "RESULT") ∧
    lastNonEmptyLine "progress: 50%\nRESULT\n" = some "RESULT" :=
  create_clone_parse_last_line "darwin" "/usr/local/bin/idb_companion"
    demoCompanion "iPhone 11" "13.0" "UDID" none none
    ⟨5, "progress: 50%\nRESULT\n", 0⟩ ⟨some 0, true⟩ demoStringParser "RESULT"
    rfl (by decide) rfl (by decide) (by decide)

/-- On the spawn path, the scoped acquisition propagates the body outcome. -/
theorem start_companion_fst {α : Type} (platform p : String) (c : Companion)
    (args : List String) (body : Outcome α) (tb : TeardownBehavior)
    (h : c.companion_path = some p) :
    (_start_companion_command platform c args body tb).1 = body := by
  simp [_start_companion_command, h]

/-- On the spawn path, the trace carries exactly one teardown call. -/
theorem start_companion_teardown_count {α : Type} (platform p : String)
    (c : Companion) (args : List String) (body : Outcome α)
    (tb : TeardownBehavior) (h : c.companion_path = some p) :
    (_start_companion_command platform c args body tb).2.count
      Event.teardownCall = 1 := by
  obtain ⟨rc, ex⟩ := tb
  simp only [_start_companion_command, h]
  rcases rc with _ | r <;> rcases ex <;>
    simp [_terminate_process, List.count_cons]

/-- A concrete `json.loads` stand-in for witnesses: recognises exactly the
handshake object with a `grpc_path` and one without it. -/
def demoLoads : JsonLoads := fun s =>
  if s = "\x7b\"grpc_path\": \"/tmp/sock\"\x7d" then
    some [("grpc_path", PyVal.str "/tmp/sock")]
  else if s = "\x7b\"pid\": 4\x7d" then some [("pid", PyVal.int 4)]
  else none

/-- C8: the `unix_domain_server` handshake: once the first output line
decodes and parses as a JSON object, a present (non-null) `grpc_path` value
is surfaced to the session of the caller exactly as parsed; an absent
`grpc_path` fails with the `No grpc_path in {line}` exception — which is
NOT the generic JSON-parse exception, so the two are distinguishable — and
the scoped acquisition still performs its single teardown call on every
such path. -/
theorem unix_domain_server_handshake {α : Type} (platform p : String)
    (c : Companion) (udid path : String) (only : Option OnlyFilter)
    (loads : JsonLoads) (firstLine : List Nat) (s : String)
    (obj : List (String × PyVal)) (session : PyVal → Outcome α)
    (tb : TeardownBehavior) (h : c.companion_path = some p)
    (hdec : utf8Decode firstLine = some s) (hload : loads s = some obj) :
    (∀ v, obj.lookup "grpc_path" = some v → v ≠ PyVal.null →
      (unix_domain_server platform c udid path only loads firstLine session tb).1 =
        session v) ∧
    (obj.lookup "grpc_path" = none →
      (unix_domain_server platform c udid path only loads firstLine session tb).1 =
        Outcome.error (PyErr.idbNoGrpcPath firstLine) ∧
      (PyErr.idbNoGrpcPath firstLine).isIdbJson = false) ∧
    (unix_domain_server platform c udid path only loads firstLine session tb).2.count
      Event.teardownCall = 1 := by
  have hparse : parse_json_line loads firstLine = Except.ok obj := by
    simp [parse_json_line, hdec, hload]
  have hfst := start_companion_fst platform p c
    (["--udid", udid, "--grpc-domain-sock", path] ++ _only_arg_from_filter only)
    (_unix_domain_server_body loads firstLine session) tb h
  refine ⟨?_, ?_, ?_⟩
  · intro v hv hvn
    rw [unix_domain_server, hfst]
    rcases v with s2 | n2
    · simp [_unix_domain_server_body, hparse, hv]
    · simp [_unix_domain_server_body, hparse, hv]
    · exact absurd rfl hvn
  · intro hnone
    refine ⟨?_, rfl⟩
    rw [unix_domain_server, hfst]
    simp [_unix_domain_server_body, hparse, hnone]
  · exact start_companion_teardown_count platform p c _ _ tb h

/-- Witness for C8 at the concrete handshake line of the claim. -/
theorem unix_domain_server_handshake_witness :
    (∀ v, (([("grpc_path", PyVal.str "/tmp/sock")] : List (String × PyVal)).lookup
        "grpc_path" = some v) → v ≠ PyVal.null →
      (unix_domain_server "darwin" demoCompanion "U" "/tmp/sock" none demoLoads
        (asciiBytes "\x7b\"grpc_path\": \"/tmp/sock\"\x7d")
        (fun v2 => Outcome.ok v2) ⟨none, true⟩).1 = Outcome.ok v) ∧
    ((([("grpc_path", PyVal.str "/tmp/sock")] : List (String × PyVal)).lookup
        "grpc_path" = none) →
      (unix_domain_server "darwin" demoCompanion "U" "/tmp/sock" none demoLoads
        (asciiBytes "\x7b\"grpc_path\": \"/tmp/sock\"\x7d")
        (fun v2 => Outcome.ok v2) ⟨none, true⟩).1 =
        Outcome.error
          (PyErr.idbNoGrpcPath (asciiBytes "\x7b\"grpc_path\": \"/tmp/sock\"\x7d")) ∧
      (PyErr.idbNoGrpcPath (asciiBytes "\x7b\"grpc_path\": \"/tmp/sock\"\x7d")).isIdbJson =
        false) ∧
    (unix_domain_server "darwin" demoCompanion "U" "/tmp/sock" none demoLoads
      (asciiBytes "\x7b\"grpc_path\": \"/tmp/sock\"\x7d")
      (fun v2 => Outcome.ok v2) ⟨none, true⟩).2.count Event.teardownCall = 1 :=
  unix_domain_server_handshake "darwin" "/usr/local/bin/idb_companion"
    demoCompanion "U" "/tmp/sock" none demoLoads
    (asciiBytes "\x7b\"grpc_path\": \"/tmp/sock\"\x7d")
    "\x7b\"grpc_path\": \"/tmp/sock\"\x7d"
    [("grpc_path", PyVal.str "/tmp/sock")] (fun v2 => Outcome.ok v2)
    ⟨none, true⟩ rfl (by decide) (by decide)

/-- Counterexample to C9 as stated: the byte line `[0xFF]` is not valid
UTF-8, so `line.decode()` — which runs OUTSIDE the `try` block — raises
`UnicodeDecodeError`; the call does NOT fail with the `IdbJsonException`
"ProtocolError" the claim requires for decode failures. -/
theorem parse_json_line_decode_counterexample :
    parse_json_line (fun _ => none) [0xFF] =
      Except.error (PyErr.unicodeDecodeError [0xFF]) ∧
    (PyErr.unicodeDecodeError [0xFF]).isIdbJson = false :=
  ⟨by decide, by decide⟩

/-- C9 (amended): for every input line of bytes, the line is decoded as
UTF-8 and then parsed as a single JSON object; a JSON-syntax failure
fails with the `IdbJsonException` carrying the offending decoded line
(never a silent drop or a default value); a UTF-8 decode failure, however,
escapes as a `UnicodeDecodeError` — not as the `IdbJsonException` — because
`line.decode()` runs outside the `try` block. -/
theorem parse_json_line_error_routing (loads : JsonLoads) (line : List Nat) :
    (∀ s, utf8Decode line = some s → loads s = none →
      parse_json_line loads line = Except.error (PyErr.idbJson s)) ∧
    (∀ s obj, utf8Decode line = some s → loads s = some obj →
      parse_json_line loads line = Except.ok obj) ∧
    (utf8Decode line = none →
      parse_json_line loads line =
        Except.error (PyErr.unicodeDecodeError line) ∧
      (PyErr.unicodeDecodeError line).isIdbJson = false) := by
  refine ⟨?_, ?_, ?_⟩
  · intro s hdec hload
    simp [parse_json_line, hdec, hload]
  · intro s obj hdec hload
    simp [parse_json_line, hdec, hload]
  · intro hdec
    exact ⟨by simp [parse_json_line, hdec], rfl⟩

/-- Witness for the amended C9 at a concrete non-JSON ASCII line. -/
theorem parse_json_line_error_routing_witness :
    (∀ s, utf8Decode (asciiBytes "notjson") = some s →
      demoLoads s = none →
      parse_json_line demoLoads (asciiBytes "notjson") =
        Except.error (PyErr.idbJson s)) ∧
    (∀ s obj, utf8Decode (asciiBytes "notjson") = some s →
      demoLoads s = some obj →
      parse_json_line demoLoads (asciiBytes "notjson") = Except.ok obj) ∧
    (utf8Decode (asciiBytes "notjson") = none →
      parse_json_line demoLoads (asciiBytes "notjson") =
        Except.error (PyErr.unicodeDecodeError (asciiBytes "notjson")) ∧
      (PyErr.unicodeDecodeError (asciiBytes "notjson")).isIdbJson = false) :=
  parse_json_line_error_routing demoLoads (asciiBytes "notjson")

/-- Witness for C10 at a concrete configuration and behaviour. -/
theorem zero_timeout_falls_back_to_default_witness :
    _run_companion_command "darwin" demoCompanion ["--boot", "U"] (some 0)
      ⟨5, "out", 0⟩ ⟨some 0, true⟩ =
      _run_companion_command "darwin" demoCompanion ["--boot", "U"] none
        ⟨5, "out", 0⟩ ⟨some 0, true⟩ ∧
    pyOr (some 0) demoCompanion.companion_command_timeout =
      demoCompanion.companion_command_timeout ∧
    pyOr none demoCompanion.companion_command_timeout =
      demoCompanion.companion_command_timeout ∧
    DEFAULT_COMPANION_COMMAND_TIMEOUT = 120 ∧
    (∀ a t2,
      (_run_companion_command "darwin" demoCompanion ["--boot", "U"] (some 0)
        ⟨5, "out", 0⟩ ⟨some 0, true⟩).1 =
        Outcome.error (PyErr.idbCommandTimeout a t2) →
      t2 = demoCompanion.companion_command_timeout) :=
  zero_timeout_falls_back_to_default "darwin" demoCompanion ["--boot", "U"]
    ⟨5, "out", 0⟩ ⟨some 0, true⟩
